import Mathlib

/-!
Shallow embedding of `src/key_file_cleaner.py`.

Python strings are modelled as Lean `String`; `str.lower`, `str.startswith`
and `str.endswith` are modelled over the character list of the string
(`Char.toLower` agrees with Python's lowercasing on ASCII, which is all the
fixed extension/prefix sets use).  The filesystem is modelled as a list of
directories plus a list of files; each file carries the directory it sits in,
its base name, its content (decodable text lines, or undecodable binary), and
a flag saying whether `os.remove` on it succeeds.  `os.walk` is modelled as
yielding the `(root, name)` pairs of the file list in order (a snapshot taken
before the loop body runs, exactly as the generator enumerates entries that
the loop body may later delete).  Exceptions are modelled with `Except`.
-/

namespace KeyFileCleaner

/-- Python exception values raised by the program (only the constructors the
source can raise are modelled). -/
inductive PyErr where
  | typeError (msg : String)
  | valueError (msg : String)
  | fileNotFoundError (msg : String)
  deriving Repr, DecidableEq

/-- Spec taxonomy: `InvalidArgument` covers Python `TypeError`/`ValueError`
raised for null/empty required input. -/
def PyErr.isInvalidArgument : PyErr → Bool
  | .typeError _ => true
  | .valueError _ => true
  | _ => false

/-- Spec taxonomy: `NotFound` covers Python `FileNotFoundError`. -/
def PyErr.isNotFound : PyErr → Bool
  | .fileNotFoundError _ => true
  | _ => false

/-- Embedding of Python `s.lower()` (ASCII case mapping). -/
def pyLower (s : String) : String := ⟨s.data.map Char.toLower⟩

/-- Embedding of Python `s.startswith(p)`. -/
def startswith (s p : String) : Bool := p.data.isPrefixOf s.data

/-- Embedding of Python `s.endswith(p)`. -/
def endswith (s p : String) : Bool := p.data.isSuffixOf s.data

/-- Embedding of Python `s.startswith(tuple ps)`. -/
def startswithAny (s : String) (ps : List String) : Bool := ps.any (startswith s)

/-- Embedding of Python `s.endswith(tuple ps)`. -/
def endswithAny (s : String) (ps : List String) : Bool := ps.any (endswith s)

/-- Embedding of `line_to_keep` on an actual `str` argument: the body
`not line.startswith('$')`. -/
def line_to_keep_str (line : String) : Bool := !(startswith line "$")

/-- Embedding of `line_to_keep` including the `None` check: `None` raises
`TypeError("line is None")`, otherwise the boolean is returned. -/
def line_to_keep : Option String → Except PyErr Bool
  | none => .error (.typeError "line is None")
  | some line => .ok (line_to_keep_str line)

/-- Content of a file on disk: text that decodes into a list of lines (each
line keeps its terminator, as `readlines` returns them), or binary content
whose read raises `UnicodeDecodeError`. -/
inductive FileContent where
  | text (lines : List String)
  | binary
  deriving Repr, DecidableEq

/-- One file of the modelled filesystem: the directory it lives in, its base
name, its content, and whether `os.remove` on it succeeds. -/
structure FSFile where
  root : String
  name : String
  content : FileContent
  deletable : Bool
  deriving Repr, DecidableEq

/-- Embedding of `os.path.join(a, b)` for the cases the program exercises. -/
def pyJoin (a b : String) : String :=
  if startswith b "/" then b
  else if a = "" then b
  else if endswith a "/" then a ++ b
  else a ++ "/" ++ b

/-- Full path of a modelled file. -/
def FSFile.path (f : FSFile) : String := pyJoin f.root f.name

/-- The modelled filesystem: the set of existing directories and the files. -/
structure FS where
  dirs : List String
  files : List FSFile
  deriving Repr, DecidableEq

/-- Look a file up by full path (models `os.path.exists` plus `open`). -/
def FS.lookupFile (fs : FS) (p : String) : Option FSFile :=
  fs.files.find? (fun f => f.path == p)

/-- Embedding of `os.remove p`: drop every file whose full path is `p`. -/
def FS.removePath (fs : FS) (p : String) : FS :=
  { fs with files := fs.files.filter (fun f => f.path != p) }

/-- Embedding of `open(p, 'w')` + `writelines`: replace the content stored at
path `p`. -/
def FS.writeText (fs : FS) (p : String) (lines : List String) : FS :=
  { fs with files := fs.files.map (fun f =>
      if f.path == p then { f with content := .text lines } else f) }

/-- Whether `os.remove p` succeeds on this filesystem: the file must exist
and be deletable. -/
def canRemove (fs : FS) (p : String) : Bool :=
  match fs.lookupFile p with
  | some f => f.deletable
  | none => false

/-- Embedding of `os.path.isdir d`: the empty path is never a directory. -/
def isdir (fs : FS) (d : String) : Bool := d ≠ "" && fs.dirs.contains d

/-- Outcome of one `process_file` call that did not raise: either the file
was rewritten and the removed-line count logged, or a `UnicodeDecodeError`
was caught and logged (the file is skipped). -/
inductive ProcResult where
  | processed (removed : Nat)
  | decodeFailed
  deriving Repr, DecidableEq

/-- Embedding of `process_file`: `None`/empty path raises `ValueError`; a
missing path raises `FileNotFoundError` before any read; inside the `try`,
a decode failure is caught and logged (file unmodified), otherwise the lines
passing `line_to_keep` are written back and the count removed is logged. -/
def process_file (fs : FS) (file_path : Option String) :
    Except PyErr (FS × ProcResult) :=
  match file_path with
  | none => .error (.valueError "file_path is None or empty")
  | some p =>
    if p = "" then .error (.valueError "file_path is None or empty")
    else
      match fs.lookupFile p with
      | none => .error (.fileNotFoundError ("File not found: " ++ p))
      | some f =>
        match f.content with
        | .binary => .ok (fs, .decodeFailed)
        | .text lines =>
          let new_lines := lines.filter line_to_keep_str
          .ok (fs.writeText p new_lines,
               .processed (lines.length - new_lines.length))

/-- The fixed extension set of `remove_lines_in_files` (source line 119). -/
def file_extensions_to_remove : List String :=
  [".ansa", ".hm", ".mvw", ".catpart", ".cfile"]

/-- The prefix set of `remove_lines_in_files` (source lines 120-122): note
the duplicated `".lock"` entry of the source, and `"d3p"` appended when
`remove_d3p` is set. -/
def file_starts_to_remove (remove_d3p : Bool) : List String :=
  let base := ["._", "ansa", ".lock", "d3d", "d3f", "lsrun", ".lock",
               "mess", "d3h", "lspost"]
  if remove_d3p then base ++ ["d3p"] else base

/-- The condition of the walker's first branch (source line 129): the
lowercased name ends with a removable extension or starts with a removable
start. -/
def is_junk (file : String) (remove_d3p : Bool) : Bool :=
  endswithAny (pyLower file) file_extensions_to_remove ||
  startswithAny (pyLower file) (file_starts_to_remove remove_d3p)

/-- What the walker does with one file name: the `if / elif / else` ladder of
source lines 129-142, as a pure function of the base name and the flag. -/
inductive FileAction where
  | delete
  | rewrite
  | skip
  deriving Repr, DecidableEq

/-- Classification of one file name by the walker's branch ladder: junk names
are deleted (checked first), otherwise names ending in `.key`/`.k`
(case-sensitive) are rewritten, otherwise the file is untouched. -/
def classifyFile (file : String) (remove_d3p : Bool) : FileAction :=
  if is_junk file remove_d3p then .delete
  else if endswithAny file [".key", ".k"] then .rewrite
  else .skip

/-- Log entries the walker and rewriter emit. -/
inductive LogEntry where
  | removedFile (path : String) (tally : Nat)
  | removeFailed (path : String)
  | processedFile (path : String) (removed : Nat)
  | decodeError (path : String)
  deriving Repr, DecidableEq

/-- Running state of one walk pass: the live filesystem, the
`files_removed` tally, and the log written so far. -/
structure WalkState where
  fs : FS
  files_removed : Nat
  log : List LogEntry
  deriving Repr, DecidableEq

/-- Body of the walker's inner loop for one `(root, file)` pair (source lines
125-142): junk files are deleted, with any deletion failure caught and
logged; key files are handed to `process_file`, whose exceptions are logged
and re-raised; everything else is untouched. -/
def walkStep (remove_d3p : Bool) (st : WalkState) (root file : String) :
    Except PyErr WalkState :=
  let file_path := pyJoin root file
  match classifyFile file remove_d3p with
  | .delete =>
    if canRemove st.fs file_path then
      .ok { fs := st.fs.removePath file_path,
            files_removed := st.files_removed + 1,
            log := st.log ++ [.removedFile file_path (st.files_removed + 1)] }
    else
      .ok { st with log := st.log ++ [.removeFailed file_path] }
  | .rewrite =>
    match process_file st.fs (some file_path) with
    | .error e => .error e
    | .ok (fs1, .processed n) =>
      .ok { st with fs := fs1, log := st.log ++ [.processedFile file_path n] }
    | .ok (fs1, .decodeFailed) =>
      .ok { st with fs := fs1, log := st.log ++ [.decodeError file_path] }
  | .skip => .ok st

/-- The walker's loop over the enumerated `(root, file)` pairs: an error from
a step aborts the remainder of the walk. -/
def walkFiles (remove_d3p : Bool) (st : WalkState) :
    List (String × String) → Except PyErr WalkState
  | [] => .ok st
  | (root, file) :: rest =>
    match walkStep remove_d3p st root file with
    | .error e => .error e
    | .ok st1 => walkFiles remove_d3p st1 rest

/-- The `(root, name)` pairs `os.walk` yields for this filesystem, modelled
as the snapshot of the file list in order. -/
def FS.walkList (fs : FS) : List (String × String) :=
  fs.files.map (fun f => (f.root, f.name))

/-- Embedding of `remove_lines_in_files`: `None` raises `TypeError`, a path
that is not an existing directory raises `FileNotFoundError`, otherwise the
tree is walked. -/
def remove_lines_in_files (fs : FS) (directory : Option String)
    (remove_d3p : Bool) : Except PyErr WalkState :=
  match directory with
  | none => .error (.typeError "directory is None")
  | some d =>
    if !(isdir fs d) then
      .error (.fileNotFoundError ("directory " ++ d ++ " is not a valid directory"))
    else
      walkFiles remove_d3p ⟨fs, 0, []⟩ fs.walkList

/-! Theorems for the claims. -/

/-- The Line Filter predicate exactly as the claim words it: keep iff the
line is non-empty and its first character is not the sentinel `$`. -/
def keep_spec (line : String) : Bool :=
  match line.data with
  | [] => false
  | c :: _ => c != '$'

/-- The Junk Classifier exactly as the spec words it: fixed extension set,
fixed prefix set without the source's duplicate, extra prefix `d3p` appended
when the flag is set. -/
def classify_spec (file : String) (flag : Bool) : Bool :=
  endswithAny (pyLower file) [".ansa", ".hm", ".mvw", ".catpart", ".cfile"] ||
  startswithAny (pyLower file)
    (["._", "ansa", ".lock", "d3d", "d3f", "lsrun", "mess", "d3h", "lspost"] ++
     (if flag then ["d3p"] else []))

/-- C1 counterexample: the empty line is kept by `line_to_keep` (the empty
string does not start with `$`), while the claim requires a kept line to be
non-empty. -/
theorem line_to_keep_empty_counterexample :
    line_to_keep (some "") = .ok true ∧ keep_spec "" = false := by
  constructor <;> rfl

/-- C1 (amended): a non-null line is kept iff it does not start with the
sentinel; for non-empty lines this coincides with the claim's formula (first
character not `$`), the empty line is kept, and a null line fails fast with
`TypeError` (the spec's `InvalidArgument`), not with keep or drop. -/
theorem line_to_keep_amended_ok (l : String) (c : Char) (cs : List Char)
    (h : l.data = c :: cs) :
    (line_to_keep (some l) = .ok true ↔ c ≠ '$') ∧
    line_to_keep (some l) = .ok (keep_spec l) ∧
    line_to_keep (some "") = .ok true ∧
    line_to_keep none = .error (.typeError "line is None") ∧
    PyErr.isInvalidArgument (.typeError "line is None") = true := by
  have hd : ("$" : String).data = ['$'] := rfl
  refine ⟨?_, ?_, rfl, rfl, rfl⟩
  · simp only [line_to_keep, line_to_keep_str, startswith, h, hd,
               List.isPrefixOf, Bool.and_true, Except.ok.injEq,
               Bool.not_eq_true', beq_eq_false_iff_ne]
    exact ne_comm
  · simp only [line_to_keep, line_to_keep_str, startswith, keep_spec, h, hd,
               List.isPrefixOf, Bool.and_true, bne, Except.ok.injEq]
    rw [Bool.beq_comm]

/-- C1 witness: instantiation at the concrete line `NODE 1\n`. -/
theorem line_to_keep_amended_ok_witness :
    ("NODE 1\n" : String).data = 'N' :: "ODE 1\n".data ∧
    (line_to_keep (some "NODE 1\n") = .ok true ↔ 'N' ≠ '$') :=
  ⟨rfl, (line_to_keep_amended_ok "NODE 1\n" 'N' "ODE 1\n".data rfl).1⟩

/-- C2: the Junk Classifier agrees with the spec's wording everywhere, is
determined by the lowercased name (hence case-insensitive and deterministic),
and decides the claim's three concrete examples as stated. -/
theorem is_junk_characterization :
    (∀ f b, is_junk f b = classify_spec f b) ∧
    (∀ f g b, pyLower f = pyLower g → is_junk f b = is_junk g b) ∧
    (∀ b, is_junk "ANSA_model.hm" b = true) ∧
    is_junk "d3plot01" true = true ∧
    is_junk "d3plot01" false = false := by
  refine ⟨?_, ?_, ?_, rfl, rfl⟩
  · intro f b
    cases b <;>
      simp only [is_junk, classify_spec, file_starts_to_remove,
            file_extensions_to_remove, startswithAny, endswithAny,
            List.any_append, List.any_cons, List.any_nil, Bool.or_false] <;>
    cases hx : startswith (pyLower f) ".lock" <;> simp [hx, Bool.or_assoc]
  · intro f g b h
    simp only [is_junk, h]
  · intro b
    cases b <;> rfl

/-- C2 witness: case-insensitivity applied to two concrete case-variants of
the same name. -/
theorem is_junk_characterization_witness :
    pyLower "ANSA_model.hm" = pyLower "ansa_MODEL.HM" ∧
    is_junk "ANSA_model.hm" true = is_junk "ansa_MODEL.HM" true :=
  ⟨rfl, is_junk_characterization.2.1 "ANSA_model.hm" "ansa_MODEL.HM" true rfl⟩

/-- C10: the configuration flag only enlarges the junk set — a name junk
with the flag unset stays junk with the flag set. -/
theorem is_junk_flag_monotone (f : String) (h : is_junk f false = true) :
    is_junk f true = true := by
  have h2 : file_starts_to_remove true = file_starts_to_remove false ++ ["d3p"] := rfl
  simp only [is_junk, h2, startswithAny, List.any_append, Bool.or_eq_true] at h ⊢
  tauto

/-- C10 witness: instantiation at a concrete junk name. -/
theorem is_junk_flag_monotone_witness :
    is_junk "ansa_db.txt" false = true ∧ is_junk "ansa_db.txt" true = true :=
  ⟨rfl, is_junk_flag_monotone "ansa_db.txt" rfl⟩

/-- C3: on an existing decodable file the rewriter writes back exactly the
lines the Line Filter keeps, in their original order and with per-line
content unchanged (the new content is the filtered sublist of the old
lines), and reports the difference of the line counts as removed; the
claim's concrete example rewrites as stated with removed-count 2. -/
theorem process_file_rewrites_kept_lines :
    (∀ fs p f lines, p ≠ "" → fs.lookupFile p = some f →
      f.content = .text lines →
      process_file fs (some p) =
        .ok (fs.writeText p (lines.filter line_to_keep_str),
             .processed (lines.length - (lines.filter line_to_keep_str).length)) ∧
      (lines.filter line_to_keep_str).Sublist lines) ∧
    process_file
        ⟨["d"], [⟨"d", "a.key",
                  .text ["$comment\n", "NODE 1 2 3\n", "$another\n"], true⟩]⟩
        (some "d/a.key") =
      .ok (⟨["d"], [⟨"d", "a.key", .text ["NODE 1 2 3\n"], true⟩]⟩,
           .processed 2) := by
  constructor
  · intro fs p f lines hp hl hc
    refine ⟨?_, List.filter_sublist _⟩
    simp [process_file, hp, hl, hc]
  · rfl

/-- C3 witness: instantiation at a concrete filesystem and path. -/
theorem process_file_rewrites_kept_lines_witness :
    (("d/a.key" : String) ≠ "" ∧
      FS.lookupFile ⟨["d"], [⟨"d", "a.key", .text ["$c\n", "x\n"], true⟩]⟩
          "d/a.key" = some ⟨"d", "a.key", .text ["$c\n", "x\n"], true⟩) ∧
    process_file ⟨["d"], [⟨"d", "a.key", .text ["$c\n", "x\n"], true⟩]⟩
        (some "d/a.key") =
      .ok ((FS.writeText ⟨["d"], [⟨"d", "a.key", .text ["$c\n", "x\n"], true⟩]⟩
              "d/a.key" (["$c\n", "x\n"].filter line_to_keep_str)),
           .processed (["$c\n", "x\n"].length -
              (["$c\n", "x\n"].filter line_to_keep_str).length)) :=
  ⟨⟨by decide, rfl⟩,
   (process_file_rewrites_kept_lines.1
      ⟨["d"], [⟨"d", "a.key", .text ["$c\n", "x\n"], true⟩]⟩ "d/a.key"
      ⟨"d", "a.key", .text ["$c\n", "x\n"], true⟩ ["$c\n", "x\n"]
      (by decide) rfl rfl).1⟩

/-- C5 counterexample: the empty path names no existing file, yet the
rewriter raises `ValueError` (the spec's `InvalidArgument` bucket), not a
`NotFound` error, so the claim's universal NotFound clause fails at the
empty path. -/
theorem process_file_empty_path_counterexample :
    FS.lookupFile ⟨[], []⟩ "" = none ∧
    process_file ⟨[], []⟩ (some "") =
      .error (.valueError "file_path is None or empty") ∧
    PyErr.isNotFound (.valueError "file_path is None or empty") = false :=
  ⟨rfl, rfl, rfl⟩

/-- C5 (amended): for every non-empty path, a missing file yields a
`FileNotFoundError` (the spec's `NotFound`) before any read, with the
filesystem untouched (the empty path fails earlier with `ValueError`); a
decode failure is caught and logged: the call returns normally and the
filesystem is unchanged. -/
theorem process_file_notfound_and_decode :
    (∀ fs p, p ≠ "" → fs.lookupFile p = none →
      process_file fs (some p) =
        .error (.fileNotFoundError ("File not found: " ++ p)) ∧
      PyErr.isNotFound (.fileNotFoundError ("File not found: " ++ p)) = true) ∧
    (∀ fs p f, p ≠ "" → fs.lookupFile p = some f → f.content = .binary →
      process_file fs (some p) = .ok (fs, .decodeFailed)) := by
  constructor
  · intro fs p hp hl
    exact ⟨by simp [process_file, hp, hl], rfl⟩
  · intro fs p f hp hl hc
    simp [process_file, hp, hl, hc]

/-- C5 witness: instantiation at a concrete missing path and a concrete
undecodable file. -/
theorem process_file_notfound_and_decode_witness :
    (("missing.key" : String) ≠ "" ∧
      FS.lookupFile ⟨["d"], [⟨"d", "bin.key", .binary, true⟩]⟩
          "missing.key" = none ∧
      process_file ⟨["d"], [⟨"d", "bin.key", .binary, true⟩]⟩
          (some "missing.key") =
        .error (.fileNotFoundError "File not found: missing.key")) ∧
    (FS.lookupFile ⟨["d"], [⟨"d", "bin.key", .binary, true⟩]⟩ "d/bin.key" =
        some ⟨"d", "bin.key", .binary, true⟩ ∧
      process_file ⟨["d"], [⟨"d", "bin.key", .binary, true⟩]⟩
          (some "d/bin.key") =
        .ok (⟨["d"], [⟨"d", "bin.key", .binary, true⟩]⟩, .decodeFailed)) :=
  ⟨⟨by decide, rfl,
    (process_file_notfound_and_decode.1
       ⟨["d"], [⟨"d", "bin.key", .binary, true⟩]⟩ "missing.key"
       (by decide) rfl).1⟩,
   ⟨rfl,
    process_file_notfound_and_decode.2
       ⟨["d"], [⟨"d", "bin.key", .binary, true⟩]⟩ "d/bin.key"
       ⟨"d", "bin.key", .binary, true⟩ (by decide) rfl rfl⟩⟩

/-- Updating the content of a file does not change its path. -/
theorem path_update_content (f : FSFile) (v : List String) :
    (FSFile.path { f with content := FileContent.text v }) = f.path := rfl

/-- Finding a file by path after a content update at that path finds the
updated file. -/
theorem find?_map_writeText (files : List FSFile) (p : String)
    (v : List String) :
    (files.map (fun f =>
        if f.path == p then { f with content := FileContent.text v } else f)).find?
        (fun f => f.path == p) =
      (files.find? (fun f => f.path == p)).map
        (fun f => { f with content := FileContent.text v }) := by
  induction files with
  | nil => rfl
  | cons a as ih =>
    simp only [List.map_cons, List.find?_cons]
    by_cases he : (a.path == p) = true
    · have h2 : (FSFile.path { a with content := FileContent.text v } == p) = true := by
        rw [path_update_content]
        exact he
      rw [if_pos he, h2, he]
      rfl
    · have hf : (a.path == p) = false := by
        cases hx : (a.path == p)
        · rfl
        · exact absurd hx he
      rw [if_neg he, hf]
      exact ih

/-- Looking a path up after writing it returns the written content. -/
theorem lookupFile_writeText (fs : FS) (p : String) (v : List String) :
    (fs.writeText p v).lookupFile p =
      (fs.lookupFile p).map (fun f => { f with content := FileContent.text v }) :=
  find?_map_writeText fs.files p v

/-- Writing the same lines to the same path twice equals writing them once. -/
theorem writeText_idem (fs : FS) (p : String) (v : List String) :
    (fs.writeText p v).writeText p v = fs.writeText p v := by
  unfold FS.writeText
  simp only [List.map_map]
  congr 1
  apply List.map_congr_left
  intro f _
  by_cases h : (f.path == p) = true
  · simp [Function.comp, h, path_update_content]
  · simp [Function.comp, h]

/-- The Line Filter is a stable filter: filtering twice equals filtering
once. -/
theorem filter_keep_idem (lines : List String) :
    (lines.filter line_to_keep_str).filter line_to_keep_str =
      lines.filter line_to_keep_str := by
  simp [List.filter_filter]

/-- C6: rewriting a key file is idempotent — after one successful rewrite, a
second rewrite of the same path leaves the filesystem exactly as it was and
reports zero lines removed. -/
theorem process_file_idempotent :
    ∀ fs p f lines fs1 n, p ≠ "" →
      fs.lookupFile p = some f → f.content = .text lines →
      process_file fs (some p) = .ok (fs1, .processed n) →
      process_file fs1 (some p) = .ok (fs1, .processed 0) := by
  intro fs p f lines fs1 n hp hl hc hrun
  have hrun2 : process_file fs (some p) =
      .ok (fs.writeText p (lines.filter line_to_keep_str),
           .processed (lines.length - (lines.filter line_to_keep_str).length)) := by
    simp [process_file, hp, hl, hc]
  rw [hrun] at hrun2
  simp only [Except.ok.injEq, Prod.mk.injEq, ProcResult.processed.injEq]
    at hrun2
  obtain ⟨hfs, hn⟩ := hrun2
  subst hfs
  have hl2 : (fs.writeText p (lines.filter line_to_keep_str)).lookupFile p =
      some { f with content := .text (lines.filter line_to_keep_str) } := by
    rw [lookupFile_writeText, hl]
    rfl
  simp [process_file, hp, hl2, filter_keep_idem, writeText_idem]

/-- C6 witness: instantiation at a concrete one-file filesystem. -/
theorem process_file_idempotent_witness :
    (("d/a.key" : String) ≠ "" ∧
      FS.lookupFile ⟨["d"], [⟨"d", "a.key", .text ["$c\n", "x\n"], true⟩]⟩
          "d/a.key" = some ⟨"d", "a.key", .text ["$c\n", "x\n"], true⟩ ∧
      process_file ⟨["d"], [⟨"d", "a.key", .text ["$c\n", "x\n"], true⟩]⟩
          (some "d/a.key") =
        .ok (⟨["d"], [⟨"d", "a.key", .text ["x\n"], true⟩]⟩, .processed 1)) ∧
    process_file ⟨["d"], [⟨"d", "a.key", .text ["x\n"], true⟩]⟩
        (some "d/a.key") =
      .ok (⟨["d"], [⟨"d", "a.key", .text ["x\n"], true⟩]⟩, .processed 0) :=
  ⟨⟨by decide, rfl, rfl⟩,
   process_file_idempotent
     ⟨["d"], [⟨"d", "a.key", .text ["$c\n", "x\n"], true⟩]⟩ "d/a.key"
     ⟨"d", "a.key", .text ["$c\n", "x\n"], true⟩ ["$c\n", "x\n"]
     ⟨["d"], [⟨"d", "a.key", .text ["x\n"], true⟩]⟩ 1
     (by decide) rfl rfl rfl⟩

/-- C4: error asymmetry of the walk — a deletion failure on a junk file is
logged and the walk continues over the remaining files, with the filesystem
and the removal tally unchanged (the file stays in place), while an error
raised by the rewriter on a key file aborts the remainder of the walk with
that error. -/
theorem walk_error_asymmetry :
    (∀ b st root file rest, is_junk file b = true →
      canRemove st.fs (pyJoin root file) = false →
      walkFiles b st ((root, file) :: rest) =
        walkFiles b
          { st with log := st.log ++ [.removeFailed (pyJoin root file)] }
          rest) ∧
    (∀ b st root file rest e, is_junk file b = false →
      endswithAny file [".key", ".k"] = true →
      process_file st.fs (some (pyJoin root file)) = .error e →
      walkFiles b st ((root, file) :: rest) = .error e) := by
  constructor
  · intro b st root file rest hj hc
    have hcl : classifyFile file b = .delete := by
      simp [classifyFile, hj]
    simp [walkFiles, walkStep, hcl, hc]
  · intro b st root file rest e hj hk hp
    have hcl : classifyFile file b = .rewrite := by
      simp [classifyFile, hj, hk]
    simp [walkFiles, walkStep, hcl, hp]

/-- C4 witness: a concrete undeletable junk file is skipped past, and a
concrete key file whose path has vanished aborts the walk. -/
theorem walk_error_asymmetry_witness :
    (is_junk "ansa.bin" false = true ∧
      canRemove ⟨["d"], [⟨"d", "ansa.bin", .text [], false⟩]⟩ "d/ansa.bin" = false ∧
      walkFiles false ⟨⟨["d"], [⟨"d", "ansa.bin", .text [], false⟩]⟩, 0, []⟩
          [("d", "ansa.bin"), ("d", "b.key")] =
        walkFiles false
          ⟨⟨["d"], [⟨"d", "ansa.bin", .text [], false⟩]⟩, 0,
           [.removeFailed "d/ansa.bin"]⟩
          [("d", "b.key")]) ∧
    (is_junk "m.key" false = false ∧
      endswithAny "m.key" [".key", ".k"] = true ∧
      process_file (⟨["d"], []⟩ : FS) (some "d/m.key") =
        .error (.fileNotFoundError "File not found: d/m.key") ∧
      walkFiles false ⟨⟨["d"], []⟩, 0, []⟩ [("d", "m.key"), ("d", "z.key")] =
        .error (.fileNotFoundError "File not found: d/m.key")) :=
  ⟨⟨rfl, rfl,
    walk_error_asymmetry.1 false
      ⟨⟨["d"], [⟨"d", "ansa.bin", .text [], false⟩]⟩, 0, []⟩
      "d" "ansa.bin" [("d", "b.key")] rfl rfl⟩,
   ⟨rfl, rfl, rfl,
    walk_error_asymmetry.2 false ⟨⟨["d"], []⟩, 0, []⟩
      "d" "m.key" [("d", "z.key")]
      (.fileNotFoundError "File not found: d/m.key") rfl rfl rfl⟩⟩

/-- C7: the walker's branch ladder classifies every name as exactly one of
delete, rewrite, untouched, with the junk check evaluated first: a junk name
is deleted even when it also carries a key-file suffix; in particular the
name `ansamodel.key` matches both and is deleted, and a concrete walk over a
filesystem holding it deletes the file instead of rewriting it. -/
theorem junk_shortcircuits_keyfile :
    (∀ n b, classifyFile n b = .delete ↔ is_junk n b = true) ∧
    (∀ n b, classifyFile n b = .rewrite ↔
      (is_junk n b = false ∧ endswithAny n [".key", ".k"] = true)) ∧
    (∀ n b, classifyFile n b = .skip ↔
      (is_junk n b = false ∧ endswithAny n [".key", ".k"] = false)) ∧
    (∀ b, classifyFile "ansamodel.key" b = .delete ∧
      endswithAny "ansamodel.key" [".key", ".k"] = true) ∧
    remove_lines_in_files
        ⟨["d"], [⟨"d", "ansamodel.key", .text ["$c\n", "x\n"], true⟩]⟩
        (some "d") false =
      .ok ⟨⟨["d"], []⟩, 1, [.removedFile "d/ansamodel.key" 1]⟩ := by
  refine ⟨?_, ?_, ?_, ?_, rfl⟩
  · intro n b
    cases h1 : is_junk n b <;> cases h2 : endswithAny n [".key", ".k"] <;>
      simp [classifyFile, h1, h2]
  · intro n b
    cases h1 : is_junk n b <;> cases h2 : endswithAny n [".key", ".k"] <;>
      simp [classifyFile, h1, h2]
  · intro n b
    cases h1 : is_junk n b <;> cases h2 : endswithAny n [".key", ".k"] <;>
      simp [classifyFile, h1, h2]
  · intro b
    cases b <;> exact ⟨rfl, rfl⟩

/-- C8: a non-junk name is handed to the rewriter iff it ends exactly in
`.key` or `.k`, by a case-sensitive suffix check: `MODEL.KEY` is left
untouched while `model.key` is rewritten. -/
theorem keyfile_suffix_case_sensitive :
    (∀ n b, classifyFile n b = .rewrite ↔
      (is_junk n b = false ∧
        (endswith n ".key" = true ∨ endswith n ".k" = true))) ∧
    (∀ b, classifyFile "MODEL.KEY" b = .skip) ∧
    (∀ b, classifyFile "model.key" b = .rewrite) ∧
    endswith "MODEL.KEY" ".key" = false ∧
    endswith "MODEL.KEY" ".k" = false := by
  refine ⟨?_, ?_, ?_, rfl, rfl⟩
  · intro n b
    have hk : endswithAny n [".key", ".k"] =
        (endswith n ".key" || endswith n ".k") := by
      simp [endswithAny, List.any_cons, List.any_nil]
    cases h1 : is_junk n b <;> cases h2 : endswith n ".key" <;>
      cases h3 : endswith n ".k" <;>
      simp [classifyFile, endswithAny, h1, h2, h3]
  · intro b
    cases b <;> rfl
  · intro b
    cases b <;> rfl

/-- C9 counterexample: the empty directory path does not raise the spec's
`InvalidArgument` — `os.path.isdir` is consulted and the walker raises
`FileNotFoundError` (the spec's `NotFound`) instead. -/
theorem walker_empty_dir_counterexample :
    remove_lines_in_files ⟨["d"], []⟩ (some "") true =
      .error (.fileNotFoundError "directory  is not a valid directory") ∧
    PyErr.isInvalidArgument
        (.fileNotFoundError "directory  is not a valid directory") = false ∧
    PyErr.isNotFound
        (.fileNotFoundError "directory  is not a valid directory") = true :=
  ⟨rfl, rfl, rfl⟩

/-- C9 (amended): a null directory fails fast with `TypeError` (the spec's
`InvalidArgument`); any path that is not an existing directory — the empty
path always among them — fails fast with `FileNotFoundError` (the spec's
`NotFound`) before any traversal. -/
theorem walker_dir_validation :
    (∀ fs b, remove_lines_in_files fs none b =
        .error (.typeError "directory is None") ∧
      PyErr.isInvalidArgument (.typeError "directory is None") = true) ∧
    (∀ fs d b, isdir fs d = false →
      remove_lines_in_files fs (some d) b =
        .error (.fileNotFoundError
          ("directory " ++ d ++ " is not a valid directory")) ∧
      PyErr.isNotFound (.fileNotFoundError
        ("directory " ++ d ++ " is not a valid directory")) = true) ∧
    (∀ fs, isdir fs "" = false) := by
  refine ⟨fun fs b => ⟨rfl, rfl⟩, ?_, fun fs => rfl⟩
  intro fs d b h
  refine ⟨?_, rfl⟩
  simp [remove_lines_in_files, h]

/-- C9 witness: instantiation at a concrete filesystem and a concrete
non-directory path. -/
theorem walker_dir_validation_witness :
    isdir ⟨["d"], []⟩ "nope" = false ∧
    remove_lines_in_files ⟨["d"], []⟩ (some "nope") true =
      .error (.fileNotFoundError "directory nope is not a valid directory") :=
  ⟨rfl, (walker_dir_validation.2.1 ⟨["d"], []⟩ "nope" true rfl).1⟩

end KeyFileCleaner
